import Mathlib

/-!
Shallow embedding of `crates/hello-triangle/src/graphics/vulkan_base.rs`
(the `VulkanBase` Vulkan bootstrap built on the `ash` bindings).

Modelling conventions:
* Machine integers: `u32` values are `Nat` with reduction modulo `2^32`
  (`U32_MOD`) exactly where the Rust code performs a cast (`index as u32`)
  or the API type is `u32` (`vk::make_api_version`). `vk::Result` error
  codes are `Int` (the C type is a 32-bit signed enum).
* Native driver calls (`Entry::new`, `create_instance`,
  `enumerate_physical_devices`, `create_device`, and the window-extension
  query `ash_window::enumerate_required_extensions`) are external effects;
  their outcomes are supplied by a `Driver` record, one field per call
  site, so every control path of the Rust code is a function of `Driver`.
* A physical device is represented by the queue-family property list the
  instance reports for it (`get_physical_device_queue_family_properties`
  is modelled as reading that field).
* Rust `Result<T, Box<dyn Error>>` is `Except BoxedError T`. The `?`
  operator on a call returning a concrete error type `E` boxes the value
  via the std blanket `impl From<E> for Box<dyn Error>`: the boxed error
  IS the original concrete error, so `BoxedError` is the sum of the
  concrete error types that can flow into `Box<dyn Error>` here.
* A Rust panic (`Option::unwrap` on `None`, `Result::unwrap` on `Err`) is
  modelled as `Option.none` at the outermost level of the function that
  would panic.
* `Drop::drop` is modelled as the list of destroy calls it issues, in
  order.
-/

namespace VulkanAsh

/-- `2^32`, the modulus of Rust `u32` arithmetic and casts. -/
def U32_MOD : Nat := 4294967296

/-! ### `vk::QueueFlags` (ash `bitflags`-style bit masks) -/

/-- `vk::QueueFlags::GRAPHICS` (bit 0). -/
def GRAPHICS : Nat := 1

/-- `vk::QueueFlags::COMPUTE` (bit 1). -/
def COMPUTE : Nat := 2

/-- `vk::QueueFlags::TRANSFER` (bit 2). -/
def TRANSFER : Nat := 4

/-- `vk::QueueFlags::contains`: all bits of `other` are set in `self`
(`self & other == other` in the bitflags implementation). -/
def QueueFlags.contains (self other : Nat) : Bool :=
  self &&& other == other

/-- The slice of `vk::QueueFamilyProperties` fields the code reads:
only `queue_flags` is inspected. -/
structure QueueFamilyProperties where
  queue_flags : Nat
deriving DecidableEq

/-- A `vk::PhysicalDevice` handle, represented by the queue-family
property list the instance reports for it. -/
structure PhysicalDevice where
  queue_families : List QueueFamilyProperties
deriving DecidableEq

/-- `struct QueueFamilyIndices { graphics_family_index: Option<u32> }`. -/
structure QueueFamilyIndices where
  graphics_family_index : Option Nat
deriving DecidableEq

/-- `QueueFamilyIndices::is_complete`: `self.graphics_family_index.is_some()`. -/
def QueueFamilyIndices.is_complete (self : QueueFamilyIndices) : Bool :=
  self.graphics_family_index.isSome

/-! ### Create-info values built by the code -/

/-- The `vk::ApplicationInfo` fields the builder sets. -/
structure ApplicationInfo where
  application_name : String
  application_version : Nat
  engine_name : String
  engine_version : Nat
  api_version : Nat
deriving DecidableEq

/-- The `vk::InstanceCreateInfo` fields the builder sets. -/
structure InstanceCreateInfo where
  application_info : ApplicationInfo
  enabled_extension_names : List String
deriving DecidableEq

/-- `vk::DeviceQueueCreateInfo`: the fields the builder sets. Queue
priorities are `f32` in Vulkan; the single value used here, `1.0`, is
exact, so priorities are modelled as rationals. -/
structure DeviceQueueCreateInfo where
  queue_family_index : Nat
  queue_priorities : List Rat
deriving DecidableEq

/-- `vk::DeviceCreateInfo`: queue create infos as set by the code, plus
the builder defaults for what the code does not set (no extension names,
no enabled-features pointer). -/
structure DeviceCreateInfo where
  queue_create_infos : List DeviceQueueCreateInfo
  enabled_extension_names : List String
  enabled_features : Option Unit
deriving DecidableEq

/-- `ash::Entry` (the loaded dynamic-library function table); opaque. -/
inductive Entry
  | mk
deriving DecidableEq

/-- `ash::Instance`, recording the create info it was created with. -/
structure Instance where
  created_with : InstanceCreateInfo
deriving DecidableEq

/-- `ash::Device`, recording the create info it was created with. -/
structure Device where
  created_with : DeviceCreateInfo
deriving DecidableEq

/-- A `vk::Queue` handle, as fetched by `get_device_queue`. -/
structure DeviceQueue where
  device : Device
  family_index : Nat
  queue_index : Nat
deriving DecidableEq

/-- `ash::Device::get_device_queue(queue_family_index, queue_index)`. -/
def get_device_queue (device : Device) (queue_family_index queue_index : Nat) :
    DeviceQueue :=
  { device := device, family_index := queue_family_index, queue_index := queue_index }

/-! ### Errors -/

/-- `ash::LoadingError`, the error of `Entry::new`; payload abstracted. -/
inductive LoadingError
  | mk (details : String)
deriving DecidableEq

/-- Modelled from the spec: the enum `GraphicsError` is declared in
`src/graphics/graphics_errors.rs`, which is not among the provided
sources; the spec names the conditions `NoValidGPU`,
`InstanceCreationError` and `DeviceCreationError`, so those are its
variants here. `vulkan_base.rs` itself constructs only `NoValidGPU`. -/
inductive GraphicsError
  | NoValidGPU
  | InstanceCreationError
  | DeviceCreationError
deriving DecidableEq

/-- `Box<dyn Error>` as it occurs in this file: the sum of the concrete
error types that reach it. `?` boxes the concrete error unchanged (std
blanket `From` impl), performing no conversion between these summands. -/
inductive BoxedError
  | graphics (e : GraphicsError)
  | vkResult (code : Int)
  | loading (e : LoadingError)
deriving DecidableEq

/-- Decidable equality of `Except` values, so the model can be evaluated
on concrete inputs by `decide`. -/
instance {ε α : Type} [DecidableEq ε] [DecidableEq α] : DecidableEq (Except ε α) := fun x y =>
  match x, y with
  | .error a, .error b =>
    if h : a = b then isTrue (congrArg Except.error h)
    else isFalse fun he => h (Except.error.inj he)
  | .ok a, .ok b =>
    if h : a = b then isTrue (congrArg Except.ok h)
    else isFalse fun he => h (Except.ok.inj he)
  | .error _, .ok _ => isFalse fun he => Except.noConfusion he
  | .ok _, .error _ => isFalse fun he => Except.noConfusion he

/-! ### The driver oracle -/

/-- Outcomes of the external native calls, one field per call site.
`required_extensions = none` means `ash_window::enumerate_required_extensions`
returned `Err` (the code then panics via `.unwrap()`). -/
structure Driver where
  required_extensions : Option (List String)
  entry_new : Except LoadingError Unit
  create_instance_call : Except Int Unit
  enumerate_physical_devices : Except Int (List PhysicalDevice)
  create_device_call : Except Int Unit

/-! ### The functions of `vulkan_base.rs` -/

/-- `vk::make_api_version(variant, major, minor, patch)`:
`(variant << 29) | (major << 22) | (minor << 12) | patch` as `u32`. -/
def make_api_version (variant major minor patch : Nat) : Nat :=
  ((variant <<< 29) ||| (major <<< 22) ||| (minor <<< 12) ||| patch) % U32_MOD

/-- `VulkanBase::create_instance`. Returns `none` on the
`enumerate_required_extensions(window).unwrap()` panic; otherwise the
result of the `?`-propagated native calls. The two `CString::new`
unwraps cannot fail (the literals contain no NUL byte) and are modelled
as the plain strings. -/
def create_instance (drv : Driver) :
    Option (Except BoxedError (Entry × Instance)) :=
  match drv.required_extensions with
  | none => none
  | some surface_extensions =>
    let extension_names_raw := surface_extensions
    let application_name := "Hello Triangle"
    let engine_name := "Hello Triangle Engine"
    let app_info : ApplicationInfo :=
      { application_name := application_name
        application_version := make_api_version 0 1 0 0
        engine_name := engine_name
        engine_version := make_api_version 0 1 0 0
        api_version := make_api_version 0 1 0 0 }
    let create_info : InstanceCreateInfo :=
      { application_info := app_info
        enabled_extension_names := extension_names_raw }
    match drv.entry_new with
    | .error e => some (.error (.loading e))
    | .ok _ =>
      match drv.create_instance_call with
      | .error code => some (.error (.vkResult code))
      | .ok _ => some (.ok (Entry.mk, { created_with := create_info }))

/-- The `for (index, queue_family) in queue_families.iter().enumerate()`
loop of `find_queue_families`, with `index` threaded explicitly.
`index as u32` is the cast in `Some(index as u32)`. -/
def findQueueFamiliesLoop : Nat → List QueueFamilyProperties → QueueFamilyIndices
  | _, [] => { graphics_family_index := none }
  | index, queue_family :: rest =>
    if QueueFlags.contains queue_family.queue_flags GRAPHICS then
      { graphics_family_index := some (index % U32_MOD) }
    else
      findQueueFamiliesLoop (index + 1) rest

/-- `VulkanBase::find_queue_families`: the instance's
`get_physical_device_queue_family_properties` query is modelled as
reading `device.queue_families`. -/
def find_queue_families (device : PhysicalDevice) : QueueFamilyIndices :=
  findQueueFamiliesLoop 0 device.queue_families

/-- `VulkanBase::is_device_suitable`. -/
def is_device_suitable (device : PhysicalDevice) : Option QueueFamilyIndices :=
  let queue_family_indices := find_queue_families device
  if queue_family_indices.is_complete then some queue_family_indices else none

/-- The `for device in physical_devices` loop of `pick_physical_device`. -/
def pickPhysicalDeviceLoop :
    List PhysicalDevice → Except BoxedError (PhysicalDevice × QueueFamilyIndices)
  | [] => .error (.graphics .NoValidGPU)
  | device :: rest =>
    match is_device_suitable device with
    | some value => .ok (device, value)
    | none => pickPhysicalDeviceLoop rest

/-- `VulkanBase::pick_physical_device`. -/
def pick_physical_device (drv : Driver) :
    Except BoxedError (PhysicalDevice × QueueFamilyIndices) :=
  match drv.enumerate_physical_devices with
  | .error code => .error (.vkResult code)
  | .ok physical_devices => pickPhysicalDeviceLoop physical_devices

/-- `VulkanBase::create_logical_device`. Returns `none` on the
`indices.graphics_family_index.unwrap()` panic. The created `Device`
records the `vk::DeviceCreateInfo` passed to the native call. -/
def create_logical_device (drv : Driver) (_physical_device : PhysicalDevice)
    (indices : QueueFamilyIndices) : Option (Except BoxedError Device) :=
  match indices.graphics_family_index with
  | none => none
  | some gfi =>
    let queue_priorities : List Rat := [1]
    let queue_info : List DeviceQueueCreateInfo :=
      [{ queue_family_index := gfi, queue_priorities := queue_priorities }]
    let device_create_info : DeviceCreateInfo :=
      { queue_create_infos := queue_info
        enabled_extension_names := []
        enabled_features := none }
    match drv.create_device_call with
    | .error code => some (.error (.vkResult code))
    | .ok _ => some (.ok { created_with := device_create_info })

/-- `struct VulkanBase { _entry, instance, device }` (`instance` renamed
`instance_`: Lean keyword). -/
structure VulkanBase where
  _entry : Entry
  instance_ : Instance
  device : Device
deriving DecidableEq

/-- `VulkanBase::new`. `none` is a panic; the fetched (and, in Rust,
discarded) `_graphics_queue` is returned alongside the context so the
queue-retrieval step is observable. -/
def VulkanBase.new (drv : Driver) :
    Option (Except BoxedError (VulkanBase × DeviceQueue)) :=
  match create_instance drv with
  | none => none
  | some (.error e) => some (.error e)
  | some (.ok (_entry, inst)) =>
    match pick_physical_device drv with
    | .error e => some (.error e)
    | .ok (physical_device, queue_family_indices) =>
      match create_logical_device drv physical_device queue_family_indices with
      | none => none
      | some (.error e) => some (.error e)
      | some (.ok device) =>
        match queue_family_indices.graphics_family_index with
        | none => none
        | some gfi =>
          let _graphics_queue := get_device_queue device gfi 0
          some (.ok ({ _entry := _entry, instance_ := inst, device := device },
                     _graphics_queue))

/-- A destroy call issued during teardown. -/
inductive CleanupCall
  | destroy_device (device : Device)
  | destroy_instance (inst : Instance)
deriving DecidableEq

/-- `true` exactly on `destroy_device` calls. -/
def CleanupCall.isDestroyDevice : CleanupCall → Bool
  | .destroy_device _ => true
  | _ => false

/-- `true` exactly on `destroy_instance` calls. -/
def CleanupCall.isDestroyInstance : CleanupCall → Bool
  | .destroy_instance _ => true
  | _ => false

/-- `impl Drop for VulkanBase`: the sequence of destroy calls `drop`
issues, in program order. -/
def VulkanBase.drop (self : VulkanBase) : List CleanupCall :=
  [CleanupCall.destroy_device self.device, CleanupCall.destroy_instance self.instance_]

/-! ### Derived predicates used by the theorem statements -/

/-- The loop test of `find_queue_families` on one family:
`queue_family.queue_flags.contains(vk::QueueFlags::GRAPHICS)`. -/
def hasGraphics (qf : QueueFamilyProperties) : Bool :=
  QueueFlags.contains qf.queue_flags GRAPHICS

/-- A device advertises graphics on at least one queue family. -/
def deviceHasGraphics (d : PhysicalDevice) : Bool :=
  d.queue_families.any hasGraphics

/-! ### Concrete sample values -/

/-- A device with no graphics-capable family (compute and transfer only). -/
def deviceNoGraphics : PhysicalDevice :=
  { queue_families := [{ queue_flags := COMPUTE }, { queue_flags := TRANSFER }] }

/-- A device with a single transfer-only family. -/
def deviceTransferOnly : PhysicalDevice :=
  { queue_families := [{ queue_flags := TRANSFER }] }

/-- A device whose first graphics-capable family sits at index 3. -/
def deviceGraphicsAt3 : PhysicalDevice :=
  { queue_families := [{ queue_flags := COMPUTE }, { queue_flags := TRANSFER },
                       { queue_flags := COMPUTE }, { queue_flags := GRAPHICS ||| COMPUTE }] }

/-- A device whose only family is graphics-capable. -/
def deviceGraphicsAt0 : PhysicalDevice :=
  { queue_families := [{ queue_flags := GRAPHICS }] }

/-- An enumeration where device index 2 is the first to qualify. -/
def sampleDevices : List PhysicalDevice :=
  [deviceNoGraphics, deviceTransferOnly, deviceGraphicsAt3, deviceGraphicsAt0]

/-- A driver on which every native call succeeds. -/
def sampleDriver : Driver :=
  { required_extensions := some ["VK_KHR_surface"]
    entry_new := .ok ()
    create_instance_call := .ok ()
    enumerate_physical_devices := .ok sampleDevices
    create_device_call := .ok () }

/-- A driver whose devices all lack graphics families. -/
def noGPUDriver : Driver :=
  { required_extensions := some ["VK_KHR_surface"]
    entry_new := .ok ()
    create_instance_call := .ok ()
    enumerate_physical_devices := .ok [deviceNoGraphics, deviceTransferOnly]
    create_device_call := .ok () }

/-- A driver whose native instance- and device-creation calls fail
(`vk::Result` codes `-9` = `ERROR_INCOMPATIBLE_DRIVER`, `-4` =
`ERROR_DEVICE_LOST`). -/
def failingCallsDriver : Driver :=
  { required_extensions := some ["VK_KHR_surface"]
    entry_new := .ok ()
    create_instance_call := .error (-9)
    enumerate_physical_devices := .ok [deviceGraphicsAt0]
    create_device_call := .error (-4) }

/-- A driver whose physical-device enumeration fails
(`vk::Result` code `-1` = `ERROR_OUT_OF_HOST_MEMORY`). -/
def enumFailDriver : Driver :=
  { required_extensions := some ["VK_KHR_surface"]
    entry_new := .ok ()
    create_instance_call := .ok ()
    enumerate_physical_devices := .error (-1)
    create_device_call := .ok () }

/-- A concrete fully-constructed context. -/
def sampleVB : VulkanBase :=
  { _entry := Entry.mk
    instance_ :=
      { created_with :=
        { application_info :=
            { application_name := "Hello Triangle"
              application_version := 4194304
              engine_name := "Hello Triangle Engine"
              engine_version := 4194304
              api_version := 4194304 }
          enabled_extension_names := ["VK_KHR_surface"] } }
    device :=
      { created_with :=
        { queue_create_infos := [{ queue_family_index := 0, queue_priorities := [1] }]
          enabled_extension_names := []
          enabled_features := none } } }

/-! ### Lemmas about the queue-family search loop -/

/-- The enumerate loop yields `none` exactly when no family in the
remaining list advertises graphics. -/
theorem findLoop_eq_none_iff (qfs : List QueueFamilyProperties) (s : Nat) :
    findQueueFamiliesLoop s qfs = { graphics_family_index := none } ↔
      ∀ qf ∈ qfs, hasGraphics qf = false := by
  induction qfs generalizing s with
  | nil => simp [findQueueFamiliesLoop]
  | cons q rest ih =>
    rw [findQueueFamiliesLoop]
    by_cases hq : QueueFlags.contains q.queue_flags GRAPHICS
    · simp [hq, hasGraphics]
    · simp only [hq]
      rw [if_neg (by simp [hq])]
      rw [ih (s + 1)]
      simp [hasGraphics, hq]

/-- If position `j` holds the first graphics-capable family of the
remaining list, the loop started at counter `s` answers `(s + j) % 2^32`. -/
theorem findLoop_first (qfs : List QueueFamilyProperties) (s j : Nat)
    (qf : QueueFamilyProperties) (hj : qfs[j]? = some qf)
    (hg : hasGraphics qf = true)
    (hfirst : ∀ k, k < j → (qfs[k]?).map hasGraphics = some false) :
    findQueueFamiliesLoop s qfs =
      { graphics_family_index := some ((s + j) % U32_MOD) } := by
  induction qfs generalizing s j with
  | nil => simp at hj
  | cons q rest ih =>
    cases j with
    | zero =>
      rw [List.getElem?_cons_zero] at hj
      injection hj with hj
      subst hj
      rw [findQueueFamiliesLoop, if_pos (by simpa [hasGraphics] using hg)]
      rw [Nat.add_zero]
    | succ j =>
      have h0 := hfirst 0 (Nat.succ_pos _)
      rw [List.getElem?_cons_zero] at h0
      simp at h0
      have h0' : QueueFlags.contains q.queue_flags GRAPHICS = false := h0
      rw [findQueueFamiliesLoop, if_neg (by simp [h0'])]
      rw [List.getElem?_cons_succ] at hj
      have hrest : ∀ k, k < j → (rest[k]?).map hasGraphics = some false := by
        intro k hk
        have := hfirst (k + 1) (by omega)
        rwa [List.getElem?_cons_succ] at this
      rw [ih (s + 1) j hj hrest]
      have : s + 1 + j = s + (j + 1) := by omega
      rw [this]

/-- Conversely, if the loop answers `some v` then some position `j` holds
the first graphics-capable family and `v = (s + j) % 2^32`. -/
theorem findLoop_some_inv (qfs : List QueueFamilyProperties) (s v : Nat)
    (h : findQueueFamiliesLoop s qfs = { graphics_family_index := some v }) :
    ∃ j, (qfs[j]?).map hasGraphics = some true ∧
      (∀ k, k < j → (qfs[k]?).map hasGraphics = some false) ∧
      v = (s + j) % U32_MOD := by
  induction qfs generalizing s with
  | nil => simp [findQueueFamiliesLoop] at h
  | cons q rest ih =>
    by_cases hq : QueueFlags.contains q.queue_flags GRAPHICS
    · rw [findQueueFamiliesLoop, if_pos hq] at h
      injection h with h
      injection h with h
      refine ⟨0, ?_, ?_, ?_⟩
      · simp [hasGraphics, hq]
      · intro k hk; omega
      · rw [Nat.add_zero]; exact h.symm
    · rw [findQueueFamiliesLoop, if_neg (by simp [hq])] at h
      obtain ⟨j, h1, h2, h3⟩ := ih (s + 1) h
      refine ⟨j + 1, ?_, ?_, ?_⟩
      · rwa [List.getElem?_cons_succ]
      · intro k hk
        cases k with
        | zero =>
          rw [List.getElem?_cons_zero]
          simp [hasGraphics, hq]
        | succ k =>
          rw [List.getElem?_cons_succ]
          exact h2 k (by omega)
      · rw [h3]; congr 1; omega

/-- `find_queue_families` answers `none` iff the device has no
graphics-capable family. -/
theorem find_queue_families_eq_none_iff (d : PhysicalDevice) :
    find_queue_families d = { graphics_family_index := none } ↔
      deviceHasGraphics d = false := by
  rw [find_queue_families, findLoop_eq_none_iff, deviceHasGraphics]
  rw [List.any_eq_false]
  simp

/-- Completeness of the search result coincides with the device
advertising graphics on some family. -/
theorem is_complete_find (d : PhysicalDevice) :
    (find_queue_families d).is_complete = deviceHasGraphics d := by
  rcases hg : deviceHasGraphics d with _ | _
  · rw [(find_queue_families_eq_none_iff d).mpr hg]
    rfl
  · rcases hfq : find_queue_families d with ⟨_ | v⟩
    · have := (find_queue_families_eq_none_iff d).mp hfq
      simp [this] at hg
    · rfl

/-- `is_device_suitable` in closed form. -/
theorem is_device_suitable_eq (d : PhysicalDevice) :
    is_device_suitable d =
      if deviceHasGraphics d = true then some (find_queue_families d) else none := by
  simp only [is_device_suitable, is_complete_find]

/-! ### Lemmas about the device-selection loop -/

/-- Selection inversion: a successful pick returns a device of the list
together with exactly its `find_queue_families` result, which is complete. -/
theorem pickLoop_ok_inv (devices : List PhysicalDevice)
    (d : PhysicalDevice) (qfi : QueueFamilyIndices)
    (h : pickPhysicalDeviceLoop devices = .ok (d, qfi)) :
    d ∈ devices ∧ qfi = find_queue_families d ∧ qfi.is_complete = true := by
  induction devices with
  | nil => simp [pickPhysicalDeviceLoop] at h
  | cons dev rest ih =>
    rw [pickPhysicalDeviceLoop] at h
    rcases hsuit : is_device_suitable dev with _ | value
    · rw [hsuit] at h
      obtain ⟨hmem, hrest⟩ := ih h
      exact ⟨List.mem_cons_of_mem _ hmem, hrest⟩
    · rw [hsuit] at h
      injection h with h
      rw [is_device_suitable] at hsuit
      by_cases hc : (find_queue_families dev).is_complete
      · rw [if_pos hc] at hsuit
        injection hsuit with hsuit
        injection h with h1 h2
        subst h1
        exact ⟨List.mem_cons_self _ _, by rw [← h2, ← hsuit], by rw [← h2, ← hsuit]; exact hc⟩
      · rw [if_neg hc] at hsuit
        exact absurd hsuit (by simp)

/-- If no device in the list is suitable, the loop reports `NoValidGPU`. -/
theorem pickLoop_all_unsuitable (devices : List PhysicalDevice)
    (h : ∀ d ∈ devices, deviceHasGraphics d = false) :
    pickPhysicalDeviceLoop devices = .error (.graphics .NoValidGPU) := by
  induction devices with
  | nil => rfl
  | cons dev rest ih =>
    have hdev : find_queue_families dev = { graphics_family_index := none } :=
      (find_queue_families_eq_none_iff dev).mpr (h dev (List.mem_cons_self _ _))
    rw [pickPhysicalDeviceLoop, is_device_suitable]
    simp only [hdev]
    rw [if_neg (by simp [QueueFamilyIndices.is_complete])]
    exact ih fun d hd => h d (List.mem_cons_of_mem _ hd)

/-- First-match selection: if position `i` holds the first suitable
device of the list, the loop picks it with its queue-family search
result. -/
theorem pickLoop_first (devices : List PhysicalDevice) (i : Nat)
    (d : PhysicalDevice) (hi : devices[i]? = some d)
    (hd : deviceHasGraphics d = true)
    (hfirst : ∀ k, k < i → (devices[k]?).map deviceHasGraphics = some false) :
    pickPhysicalDeviceLoop devices = .ok (d, find_queue_families d) := by
  induction devices generalizing i with
  | nil => simp at hi
  | cons dev rest ih =>
    cases i with
    | zero =>
      rw [List.getElem?_cons_zero] at hi
      injection hi with hi
      subst hi
      rw [pickPhysicalDeviceLoop, is_device_suitable_eq, if_pos hd]
    | succ i =>
      have h0 := hfirst 0 (Nat.succ_pos _)
      rw [List.getElem?_cons_zero] at h0
      simp at h0
      rw [pickPhysicalDeviceLoop, is_device_suitable_eq, if_neg (by simp [h0])]
      rw [List.getElem?_cons_succ] at hi
      exact ih i hi fun k hk => by
        have := hfirst (k + 1) (by omega)
        rwa [List.getElem?_cons_succ] at this

/-! ### Claim theorems -/

/-- C1: for every enumerated device list, `pick_physical_device` returns
the first device (in enumeration order) that exposes a graphics-capable
queue family, paired with that device's lowest graphics-capable family
index, and ignores every later qualifying device. The length bound
reflects the `index as u32` cast; the Vulkan API reports queue-family
counts as `u32`, so it always holds. -/
theorem C1_pick_first_device_lowest_family
    (drv : Driver) (devices : List PhysicalDevice) (i : Nat) (d : PhysicalDevice)
    (henum : drv.enumerate_physical_devices = .ok devices)
    (hdev : devices[i]? = some d)
    (hqual : deviceHasGraphics d = true)
    (hfirst : ∀ k, k < i → (devices[k]?).map deviceHasGraphics = some false)
    (hlen : d.queue_families.length ≤ U32_MOD) :
    ∃ j, pick_physical_device drv = .ok (d, { graphics_family_index := some j }) ∧
      (d.queue_families[j]?).map hasGraphics = some true ∧
      ∀ k, k < j → (d.queue_families[k]?).map hasGraphics = some false := by
  have hpick : pickPhysicalDeviceLoop devices = .ok (d, find_queue_families d) :=
    pickLoop_first devices i d hdev hqual hfirst
  rcases hfq : find_queue_families d with ⟨_ | v⟩
  · have := (find_queue_families_eq_none_iff d).mp hfq
    simp [this] at hqual
  · obtain ⟨j, h1, h2, h3⟩ := findLoop_some_inv d.queue_families 0 v hfq
    have hjlen : j < d.queue_families.length := by
      by_contra hle
      rw [List.getElem?_eq_none (by omega)] at h1
      simp at h1
    have hvj : v = j := by
      rw [h3, Nat.zero_add, Nat.mod_eq_of_lt (by omega)]
    refine ⟨j, ?_, h1, h2⟩
    simp only [pick_physical_device, henum]
    rw [hpick, hfq, hvj]

/-- Witness for C1 at the spec's own example shape: device index 2 is the
first with a graphics family, at queue-family index 3; a later device
(index 3, graphics at family 0) is ignored. -/
theorem C1_witness :
    (sampleDriver.enumerate_physical_devices = .ok sampleDevices ∧
     sampleDevices[2]? = some deviceGraphicsAt3 ∧
     deviceHasGraphics deviceGraphicsAt3 = true ∧
     (∀ k, k < 2 → (sampleDevices[k]?).map deviceHasGraphics = some false) ∧
     deviceGraphicsAt3.queue_families.length ≤ U32_MOD) ∧
    ∃ j, pick_physical_device sampleDriver =
        .ok (deviceGraphicsAt3, { graphics_family_index := some j }) ∧
      (deviceGraphicsAt3.queue_families[j]?).map hasGraphics = some true ∧
      ∀ k, k < j → (deviceGraphicsAt3.queue_families[k]?).map hasGraphics = some false :=
  ⟨⟨rfl, by decide, by decide, by decide, by decide⟩,
   C1_pick_first_device_lowest_family sampleDriver sampleDevices 2 deviceGraphicsAt3
     rfl (by decide) (by decide) (by decide) (by decide)⟩

/-- C2: when no enumerated device exposes a queue family with the
`GRAPHICS` flag, `pick_physical_device` returns the `NoValidGPU` error
and no device. -/
theorem C2_no_graphics_yields_NoValidGPU
    (drv : Driver) (devices : List PhysicalDevice)
    (henum : drv.enumerate_physical_devices = .ok devices)
    (hnone : ∀ d ∈ devices, ∀ qf ∈ d.queue_families, hasGraphics qf = false) :
    pick_physical_device drv = .error (.graphics .NoValidGPU) := by
  have hall : ∀ d ∈ devices, deviceHasGraphics d = false := by
    intro d hd
    rw [deviceHasGraphics, List.any_eq_false]
    intro qf hqf
    simp [hnone d hd qf hqf]
  simp only [pick_physical_device, henum]
  exact pickLoop_all_unsuitable devices hall

/-- Witness for C2: two devices, neither with a graphics family. -/
theorem C2_witness :
    (noGPUDriver.enumerate_physical_devices = .ok [deviceNoGraphics, deviceTransferOnly] ∧
     (∀ d ∈ [deviceNoGraphics, deviceTransferOnly], ∀ qf ∈ d.queue_families,
        hasGraphics qf = false)) ∧
    pick_physical_device noGPUDriver = .error (.graphics .NoValidGPU) :=
  ⟨⟨rfl, by decide⟩,
   C2_no_graphics_yields_NoValidGPU noGPUDriver [deviceNoGraphics, deviceTransferOnly]
     rfl (by decide)⟩

/-- C3: on the queue-family list `[COMPUTE, GRAPHICS, TRANSFER]`,
`find_queue_families` returns graphics family index 1. -/
theorem C3_compute_graphics_transfer :
    find_queue_families
      { queue_families := [{ queue_flags := COMPUTE }, { queue_flags := GRAPHICS },
                           { queue_flags := TRANSFER }] } =
      { graphics_family_index := some 1 } := by decide

/-- C4: for a selected family index `i`, `create_logical_device` builds a
device-creation request with exactly one queue-create entry for family
`i`, a single queue priority `1.0`, and no device extensions or features. -/
theorem C4_logical_device_request
    (drv : Driver) (pd : PhysicalDevice) (indices : QueueFamilyIndices) (i : Nat)
    (hidx : indices.graphics_family_index = some i)
    (hok : drv.create_device_call = .ok ()) :
    create_logical_device drv pd indices =
      some (.ok { created_with :=
        { queue_create_infos := [{ queue_family_index := i, queue_priorities := [1] }]
          enabled_extension_names := []
          enabled_features := none } }) := by
  simp only [create_logical_device, hidx, hok]

/-- Witness for C4 at family index 7. -/
theorem C4_witness :
    (({ graphics_family_index := some 7 } : QueueFamilyIndices).graphics_family_index =
       some 7 ∧
     sampleDriver.create_device_call = .ok ()) ∧
    create_logical_device sampleDriver deviceGraphicsAt0 { graphics_family_index := some 7 } =
      some (.ok { created_with :=
        { queue_create_infos := [{ queue_family_index := 7, queue_priorities := [1] }]
          enabled_extension_names := []
          enabled_features := none } }) :=
  ⟨⟨rfl, rfl⟩,
   C4_logical_device_request sampleDriver deviceGraphicsAt0
     { graphics_family_index := some 7 } 7 rfl rfl⟩

/-- C5: teardown issues `destroy_device` strictly before
`destroy_instance`: in the emitted call sequence of `Drop`, every
`destroy_device` position precedes every `destroy_instance` position,
and the calls name the context's own device and instance handles. -/
theorem C5_teardown_device_before_instance
    (vb : VulkanBase) (i j : Nat)
    (hi : ((VulkanBase.drop vb)[i]?).map CleanupCall.isDestroyDevice = some true)
    (hj : ((VulkanBase.drop vb)[j]?).map CleanupCall.isDestroyInstance = some true) :
    i < j ∧ (VulkanBase.drop vb)[i]? = some (.destroy_device vb.device) ∧
      (VulkanBase.drop vb)[j]? = some (.destroy_instance vb.instance_) := by
  have hlen : (VulkanBase.drop vb).length = 2 := rfl
  have hi0 : i = 0 := by
    rcases i with _ | _ | i
    · rfl
    · simp [VulkanBase.drop, CleanupCall.isDestroyDevice] at hi
    · rw [List.getElem?_eq_none (by rw [hlen]; omega)] at hi
      simp at hi
  have hj1 : j = 1 := by
    rcases j with _ | _ | j
    · simp [VulkanBase.drop, CleanupCall.isDestroyInstance] at hj
    · rfl
    · rw [List.getElem?_eq_none (by rw [hlen]; omega)] at hj
      simp at hj
  subst hi0
  subst hj1
  exact ⟨Nat.zero_lt_one, rfl, rfl⟩

/-- Witness for C5 on a concrete context. -/
theorem C5_witness :
    (((VulkanBase.drop sampleVB)[0]?).map CleanupCall.isDestroyDevice = some true ∧
     ((VulkanBase.drop sampleVB)[1]?).map CleanupCall.isDestroyInstance = some true) ∧
    (0 < 1 ∧ (VulkanBase.drop sampleVB)[0]? = some (.destroy_device sampleVB.device) ∧
     (VulkanBase.drop sampleVB)[1]? = some (.destroy_instance sampleVB.instance_)) :=
  ⟨⟨by decide, by decide⟩,
   C5_teardown_device_before_instance sampleVB 0 1 (by decide) (by decide)⟩

/-- C6 counterexample: on a driver whose native calls fail with
`vk::Result` codes `-9` (instance) and `-4` (device), the functions
return the boxed native codes, not the named `GraphicsError` values
`InstanceCreationError` / `DeviceCreationError` the claim requires. -/
theorem C6_counterexample :
    create_instance failingCallsDriver = some (.error (.vkResult (-9))) ∧
    create_instance failingCallsDriver ≠
      some (.error (.graphics .InstanceCreationError)) ∧
    create_logical_device failingCallsDriver deviceGraphicsAt0
        { graphics_family_index := some 0 } = some (.error (.vkResult (-4))) ∧
    create_logical_device failingCallsDriver deviceGraphicsAt0
        { graphics_family_index := some 0 } ≠
      some (.error (.graphics .DeviceCreationError)) :=
  ⟨by decide, by decide, by decide, by decide⟩

/-- C6 (amended): whenever the underlying native call fails, instance
creation and logical device creation fail by propagating the underlying
native error itself (boxed unchanged by `?`); the code constructs no
`InstanceCreationError` or `DeviceCreationError` value. -/
theorem C6_amended_native_error_propagated
    (drv : Driver) (exts : List String)
    (hext : drv.required_extensions = some exts)
    (hentry : drv.entry_new = .ok ())
    (pd : PhysicalDevice) (indices : QueueFamilyIndices) (i : Nat)
    (hidx : indices.graphics_family_index = some i) :
    (∀ c, drv.create_instance_call = .error c →
      create_instance drv = some (.error (.vkResult c))) ∧
    (∀ c, drv.create_device_call = .error c →
      create_logical_device drv pd indices = some (.error (.vkResult c))) := by
  constructor
  · intro c hc
    simp only [create_instance, hext, hentry, hc]
  · intro c hc
    simp only [create_logical_device, hidx, hc]

/-- Witness for the amended C6 on the failing driver. -/
theorem C6_witness :
    (failingCallsDriver.required_extensions = some ["VK_KHR_surface"] ∧
     failingCallsDriver.entry_new = .ok () ∧
     ({ graphics_family_index := some 0 } : QueueFamilyIndices).graphics_family_index =
       some 0) ∧
    ((∀ c, failingCallsDriver.create_instance_call = .error c →
       create_instance failingCallsDriver = some (.error (.vkResult c))) ∧
     (∀ c, failingCallsDriver.create_device_call = .error c →
       create_logical_device failingCallsDriver deviceGraphicsAt0
         { graphics_family_index := some 0 } = some (.error (.vkResult c)))) :=
  ⟨⟨rfl, rfl, rfl⟩,
   C6_amended_native_error_propagated failingCallsDriver ["VK_KHR_surface"] rfl rfl
     deviceGraphicsAt0 { graphics_family_index := some 0 } 0 rfl⟩

/-- C7: every failure arising during construction — instance creation
(loader or native call), device enumeration, suitable-device search, or
logical device creation — makes `VulkanBase::new` abort and return that
error as an `Err` result: nothing is recovered, retried, or turned into
a panic. -/
theorem C7_construction_failures_propagate
    (drv : Driver) (exts : List String)
    (hext : drv.required_extensions = some exts) :
    (∀ e, drv.entry_new = .error e →
      VulkanBase.new drv = some (.error (.loading e))) ∧
    (drv.entry_new = .ok () → ∀ c, drv.create_instance_call = .error c →
      VulkanBase.new drv = some (.error (.vkResult c))) ∧
    (drv.entry_new = .ok () → drv.create_instance_call = .ok () →
      ∀ c, drv.enumerate_physical_devices = .error c →
        VulkanBase.new drv = some (.error (.vkResult c))) ∧
    (drv.entry_new = .ok () → drv.create_instance_call = .ok () →
      ∀ devices, drv.enumerate_physical_devices = .ok devices →
        (∀ d ∈ devices, deviceHasGraphics d = false) →
          VulkanBase.new drv = some (.error (.graphics .NoValidGPU))) ∧
    (drv.entry_new = .ok () → drv.create_instance_call = .ok () →
      ∀ devices d qfi, drv.enumerate_physical_devices = .ok devices →
        pickPhysicalDeviceLoop devices = .ok (d, qfi) →
        ∀ c, drv.create_device_call = .error c →
          VulkanBase.new drv = some (.error (.vkResult c))) := by
  refine ⟨?_, ?_, ?_, ?_, ?_⟩
  · intro e he
    simp only [VulkanBase.new, create_instance, hext, he]
  · intro h1 c hc
    simp only [VulkanBase.new, create_instance, hext, h1, hc]
  · intro h1 h2 c hc
    simp only [VulkanBase.new, create_instance, hext, h1, h2,
      pick_physical_device, hc]
  · intro h1 h2 devices henum hall
    have := pickLoop_all_unsuitable devices hall
    simp only [VulkanBase.new, create_instance, hext, h1, h2,
      pick_physical_device, henum, this]
  · intro h1 h2 devices d qfi henum hpick c hc
    obtain ⟨-, -, hcomp⟩ := pickLoop_ok_inv devices d qfi hpick
    rcases hgi : qfi.graphics_family_index with _ | i
    · rw [QueueFamilyIndices.is_complete, hgi] at hcomp
      simp at hcomp
    · simp only [VulkanBase.new, create_instance, hext, h1, h2,
        pick_physical_device, henum, hpick, create_logical_device, hgi, hc]

/-- Witness for C7: enumeration fails with `vk::Result` code `-1` and
`new` returns exactly that boxed error. -/
theorem C7_witness :
    enumFailDriver.required_extensions = some ["VK_KHR_surface"] ∧
    VulkanBase.new enumFailDriver = some (.error (.vkResult (-1))) :=
  ⟨rfl,
   (C7_construction_failures_propagate enumFailDriver ["VK_KHR_surface"] rfl).2.2.1
     rfl rfl (-1) rfl⟩

/-- C8: a successful selection always carries a present graphics family
index, so the `unwrap`s in `VulkanBase::new` cannot panic; on the
success path the queue fetched is queue index 0 of the chosen family. -/
theorem C8_queue_retrieval_cannot_panic
    (drv : Driver) (d : PhysicalDevice) (qfi : QueueFamilyIndices)
    (hpick : pick_physical_device drv = .ok (d, qfi)) :
    qfi.graphics_family_index.isSome = true ∧
    (drv.required_extensions.isSome = true → VulkanBase.new drv ≠ none) ∧
    (∀ exts i, drv.required_extensions = some exts → drv.entry_new = .ok () →
      drv.create_instance_call = .ok () → drv.create_device_call = .ok () →
      qfi.graphics_family_index = some i →
      ∃ vb, VulkanBase.new drv = some (.ok (vb, get_device_queue vb.device i 0))) := by
  rcases henum : drv.enumerate_physical_devices with c | devices
  · simp only [pick_physical_device, henum] at hpick
    exact Except.noConfusion hpick
  · simp only [pick_physical_device, henum] at hpick
    obtain ⟨-, -, hcomp⟩ := pickLoop_ok_inv devices d qfi hpick
    refine ⟨hcomp, ?_, ?_⟩
    · intro hre
      rcases hext : drv.required_extensions with _ | exts
      · rw [hext] at hre
        simp at hre
      rcases h1 : drv.entry_new with e | u
      · simp only [VulkanBase.new, create_instance, hext, h1]
        exact Option.noConfusion
      rcases h2 : drv.create_instance_call with c | u2
      · simp only [VulkanBase.new, create_instance, hext, h1, h2]
        exact Option.noConfusion
      rcases hgi : qfi.graphics_family_index with _ | i
      · rw [QueueFamilyIndices.is_complete, hgi] at hcomp
        simp at hcomp
      rcases h4 : drv.create_device_call with c | u4
      · simp only [VulkanBase.new, create_instance, hext, h1, h2,
          pick_physical_device, henum, hpick, create_logical_device, hgi, h4]
        exact Option.noConfusion
      · simp only [VulkanBase.new, create_instance, hext, h1, h2,
          pick_physical_device, henum, hpick, create_logical_device, hgi, h4]
        exact Option.noConfusion
    · intro exts i hext h1 h2 h4 hgi
      simp only [VulkanBase.new, create_instance, hext, h1, h2,
        pick_physical_device, henum, hpick, create_logical_device, hgi, h4,
        get_device_queue]
      exact ⟨_, rfl⟩

/-- Witness for C8 on the all-success driver: selection picks family 3
of the third device and `new` fetches queue 0 of family 3. -/
theorem C8_witness :
    pick_physical_device sampleDriver =
      .ok (deviceGraphicsAt3, { graphics_family_index := some 3 }) ∧
    (({ graphics_family_index := some 3 } : QueueFamilyIndices).graphics_family_index.isSome
        = true ∧
     (sampleDriver.required_extensions.isSome = true →
       VulkanBase.new sampleDriver ≠ none) ∧
     (∀ exts i, sampleDriver.required_extensions = some exts →
       sampleDriver.entry_new = .ok () →
       sampleDriver.create_instance_call = .ok () →
       sampleDriver.create_device_call = .ok () →
       ({ graphics_family_index := some 3 } : QueueFamilyIndices).graphics_family_index =
         some i →
       ∃ vb, VulkanBase.new sampleDriver =
         some (.ok (vb, get_device_queue vb.device i 0)))) :=
  ⟨by decide,
   C8_queue_retrieval_cannot_panic sampleDriver deviceGraphicsAt3
     { graphics_family_index := some 3 } (by decide)⟩

/-- C9: `is_complete` is `true` exactly when the graphics family index
is present. -/
theorem C9_is_complete_iff_present (q : QueueFamilyIndices) :
    q.is_complete = true ↔ ∃ i, q.graphics_family_index = some i := by
  rw [QueueFamilyIndices.is_complete, Option.isSome_iff_exists]

/-- C10: `find_queue_families` answers `Some i` only for a valid index
`i` whose family advertises `GRAPHICS`, and answers `None` exactly when
no family does. The length bound reflects the `index as u32` cast; the
Vulkan API reports queue-family counts as `u32`, so it always holds. -/
theorem C10_find_queue_families_sound
    (qfs : List QueueFamilyProperties) (hlen : qfs.length ≤ U32_MOD) :
    (∀ i, find_queue_families { queue_families := qfs } =
        { graphics_family_index := some i } →
      (qfs[i]?).map hasGraphics = some true) ∧
    (find_queue_families { queue_families := qfs } = { graphics_family_index := none } ↔
      ∀ qf ∈ qfs, hasGraphics qf = false) := by
  constructor
  · intro i hfind
    obtain ⟨j, h1, h2, h3⟩ := findLoop_some_inv qfs 0 i hfind
    have hjlen : j < qfs.length := by
      by_contra hle
      rw [List.getElem?_eq_none (by omega)] at h1
      simp at h1
    have hij : i = j := by
      rw [h3, Nat.zero_add, Nat.mod_eq_of_lt (by omega)]
    rw [hij]
    exact h1
  · exact findLoop_eq_none_iff qfs 0

/-- Witness for C10 on the `[COMPUTE, GRAPHICS, TRANSFER]` list. -/
theorem C10_witness :
    ([{ queue_flags := COMPUTE }, { queue_flags := GRAPHICS },
      { queue_flags := TRANSFER }] : List QueueFamilyProperties).length ≤ U32_MOD ∧
    ((∀ i, find_queue_families
        { queue_families := [{ queue_flags := COMPUTE }, { queue_flags := GRAPHICS },
                             { queue_flags := TRANSFER }] } =
          { graphics_family_index := some i } →
        (([{ queue_flags := COMPUTE }, { queue_flags := GRAPHICS },
           { queue_flags := TRANSFER }] : List QueueFamilyProperties)[i]?).map hasGraphics =
          some true) ∧
     (find_queue_families
        { queue_families := [{ queue_flags := COMPUTE }, { queue_flags := GRAPHICS },
                             { queue_flags := TRANSFER }] } =
          { graphics_family_index := none } ↔
       ∀ qf ∈ ([{ queue_flags := COMPUTE }, { queue_flags := GRAPHICS },
                { queue_flags := TRANSFER }] : List QueueFamilyProperties),
         hasGraphics qf = false)) :=
  ⟨by decide,
   C10_find_queue_families_sound
     [{ queue_flags := COMPUTE }, { queue_flags := GRAPHICS }, { queue_flags := TRANSFER }]
     (by decide)⟩

end VulkanAsh
